import Mathlib

/-!
# Verification of `backend/usfm_checker.py`

A shallow embedding of the resource-sweep and classification pipeline of
`usfm_checker.py`, together with theorems settling the specification claims.

Modelling conventions:
* Python `Optional[str]` values become `Option String`; Python truthiness of
  such a value (`not x`) is captured by `truthy` (`None` and `""` are falsy).
* Filesystem paths are lists of components; `Path(p).parent` is `List.dropLast`
  and `Path(p).name` is the last component (`pathName`).  `Path.absolute()` is
  the identity here: paths are modelled as already absolute.
* Calls that may raise become `Except String` results; an `Except.error` that
  reaches the top of a function models an uncaught Python exception.
* The external collaborators (`resource_lookup.usfm_resource_lookup`,
  `resource_lookup.resource_directory`, `os.path.exists`,
  `resource_lookup.provision_asset_files`, `parsing.usfm_asset_file`,
  `parsing.usfm_asset_html`) are fields of an environment `Env`; the sweep
  controller is embedded as a function of that environment which also returns
  the trace of collaborator invocations and logging/deletion effects.
-/

/-- Python truthiness of an `Optional[str]` value: `None` and the empty string
are falsy, every other string is truthy.  Models `not content_file` and
`not html` in `usfm_check_for_lang`. -/
def truthy : Option String → Bool
  | none => false
  | some s => !(s == "")

/-- The four event kinds logged by `usfm_check_for_lang`.  The constructor
names follow the spec; the code logs them as the strings
`content_file is None`, `html is None`, `len(html) <= 300` and
`parses to HTML fine` respectively. -/
inductive Kind where
  | content_file_missing
  | html_missing
  | html_too_short
  | parsed_ok
deriving DecidableEq

/-- `len(html)` for the (possibly absent) rendered HTML; only consulted on the
branch where `html` is truthy. -/
def pyLen (h : Option String) : Nat := (h.getD "").length

/-- The `if not content_file / elif not html / elif html and not len(html) > 300
/ else` chain of `usfm_check_for_lang` (lines 181-226), as a decision function
over the extraction outcome. -/
def classify (cf h : Option String) : Kind :=
  if truthy cf = false then Kind.content_file_missing
  else if truthy h = false then Kind.html_missing
  else if truthy h && !(decide (300 < pyLen h)) then Kind.html_too_short
  else Kind.parsed_ok

/-- `Path(p).name`: the final component of a path, `""` for an empty path. -/
def pathName (p : List String) : String := p.getLast?.getD ""

/-- `delete_asset(resource_dir, dir_to_preserve="temp")` (lines 99-104).
Returns the path handed to `delete_tree`, or `none` when nothing is deleted.
`parent_dir` is `Path(resource_dir).parent.absolute()`. -/
def delete_asset (resource_dir : List String) (dir_to_preserve : String) :
    Option (List String) :=
  if dir_to_preserve ≠ pathName resource_dir.dropLast then some resource_dir.dropLast
  else if dir_to_preserve ≠ pathName resource_dir then some resource_dir
  else none

/-- One resource-type record of a `contents` entry of the translations feed.
A record is a JSON object which may lack the `name` field
(`resource_type["name"] if "name" in resource_type else ""`). -/
structure RTRec where
  code : String
  name : Option String
deriving DecidableEq

/-- One language entry of the translations feed. -/
structure LangEntry where
  code : String
  contents : List RTRec
deriving DecidableEq

/-- The membership test of `resource_types_and_names`: the record code lies in
the union of the configured USFM / TN / TQ / TW resource-type codes. -/
def keepCode (usfm tn tq tw : List String) (r : RTRec) : Bool :=
  (usfm ++ tn ++ tq ++ tw).contains r.code

/-- The reformatting of one feed record into a
`(code, "name (code)")` pair, with the name defaulting to the empty string
when the record has no `name` field. -/
def formatRec (r : RTRec) : String × String :=
  (r.code, (r.name.getD "") ++ " (" ++ r.code ++ ")")

/-- The computation bound to the loop variable `values` for one matching
language entry: filter its `contents` to the configured codes and reformat. -/
def entryValues (usfm tn tq tw : List String) (e : LangEntry) :
    List (String × String) :=
  (e.contents.filter (keepCode usfm tn tq tw)).map formatRec

/-- `sorted(values, key=lambda value: value[0])`: a stable sort of the pairs
ascending by their first component. -/
def sortPairs (l : List (String × String)) : List (String × String) :=
  l.insertionSort (fun a b => a.1 ≤ b.1)

/-- `resource_types_and_names` (lines 54-92).  The static gateway maps, the
fetched feed and the configured code lists are passed explicitly (the Python
function takes them as defaulted parameters / fetches the feed).  The Python
`for` loop rebinds `values` once per matching entry, so after the loop only
the LAST matching entry's computation survives; when no entry matches, the
`return sorted(values, ...)` line raises `UnboundLocalError`, modelled as an
`Except.error`. -/
def resource_types_and_names (lang_code : String)
    (english_resource_type_map id_resource_type_map : List (String × String))
    (data : List LangEntry) (usfm tn tq tw : List String) :
    Except String (List (String × String)) :=
  if lang_code = "en" then Except.ok english_resource_type_map
  else if lang_code = "id" then Except.ok id_resource_type_map
  else
    match (data.filter (fun e => e.code == lang_code)).getLast? with
    | none =>
        Except.error "UnboundLocalError: local variable values referenced before assignment"
    | some e => Except.ok (sortPairs (entryValues usfm tn tq tw e))

/-- The descriptor returned by `resource_lookup.usfm_resource_lookup`
(a `ResourceLookupDto`); only the fields the sweep reads are modelled. -/
structure Dto where
  lang_code : String
  book_code : String
  resource_type : String
  url : Option String
deriving DecidableEq

/-- One observable effect of processing a triple: an invocation of a
collaborator, a diagnostic log record, or a tree deletion. -/
inductive Effect where
  | lookupCall (lang rt book : String)
  | provisionCall (dto : Dto)
  | fileCall
  | htmlCall
  | loggedExc
  | logged (k : Kind)
  | deleted (p : List String)
deriving DecidableEq

/-- The external collaborators of the sweep.  `Except.error` models a raised
exception; `dirExists` is `os.path.exists`. -/
structure Env where
  lookup : String → String → String → Except String Dto
  resource_directory : String → String → String → List String
  dirExists : List String → Bool
  provision : Dto → Except String (List String)
  usfm_asset_file : Dto → List String → Except String (Option String)
  usfm_asset_html : Option String → Dto → Except String (Option String)

/-- The `try/except` block of `usfm_check_for_lang` (lines 172-180):
`content_file` and `html` start as `None`; `usfm_asset_file` is called, then
`usfm_asset_html` on its result; a raise from either is caught and logged
(`logger.exception`), leaving the not-yet-assigned variables `None`.
Returns `(content_file, html, actions)`. -/
def extract (env : Env) (dto : Dto) (dir : List String) :
    Option String × Option String × List Effect :=
  match env.usfm_asset_file dto dir with
  | Except.error _ => (none, none, [Effect.fileCall, Effect.loggedExc])
  | Except.ok cf =>
    match env.usfm_asset_html cf dto with
    | Except.error _ => (cf, none, [Effect.fileCall, Effect.htmlCall, Effect.loggedExc])
    | Except.ok h => (cf, h, [Effect.fileCall, Effect.htmlCall])

/-- The deletion effect of the final `else` branch: `delete_asset(resource_dir)`
is called only when the classification is `parsed_ok` (the branch that logs
`parses to HTML fine`). -/
def deleteActs (k : Kind) (dir : List String) : List Effect :=
  if k = Kind.parsed_ok then
    match delete_asset dir "temp" with
    | some p => [Effect.deleted p]
    | none => []
  else []

/-- The body of the inner loop of `usfm_check_for_lang` (lines 141-226) for one
(language, resource type, book) triple: look the triple up, compute the
canonical directory from the descriptor, skip if it exists, otherwise
provision, extract, classify, log and apply retention.  The result is the
trace of effects, or `Except.error` when an exception escapes the body. -/
def check_one (env : Env) (lang rt book : String) :
    Except String (List Effect) :=
  match env.lookup lang rt book with
  | Except.error e => Except.error e
  | Except.ok dto =>
    if env.dirExists
        (env.resource_directory dto.lang_code dto.book_code dto.resource_type) then
      Except.ok [Effect.lookupCall lang rt book]
    else
      match env.provision dto with
      | Except.error e => Except.error e
      | Except.ok dir =>
        let res := extract env dto dir
        let k := classify res.1 res.2.1
        Except.ok ([Effect.lookupCall lang rt book, Effect.provisionCall dto]
          ++ res.2.2 ++ [Effect.logged k] ++ deleteActs k dir)

/-- The inner `for usfm_resource_type_and_name in usfm_resource_types_and_names`
loop: each element is a `(code, display name)` pair and its code (`[0]`) is
passed to the lookup.  An uncaught exception from the loop body aborts the
loop. -/
def check_rtypes (env : Env) (lang book : String) :
    List (String × String) → Except String (List Effect)
  | [] => Except.ok []
  | rt :: rts =>
    match check_one env lang rt.1 book with
    | Except.error e => Except.error e
    | Except.ok tr =>
      match check_rtypes env lang book rts with
      | Except.error e => Except.error e
      | Except.ok tr2 => Except.ok (tr ++ tr2)

/-- The outer `for book_code in book_codes` loop of `usfm_check_for_lang`:
each element is a `(code, name)` pair and its code (`[0]`) is passed down.
An uncaught exception from the inner loop aborts the sweep for the
language. -/
def check_books (env : Env) (lang : String) (rtypes : List (String × String)) :
    List (String × String) → Except String (List Effect)
  | [] => Except.ok []
  | bk :: bks =>
    match check_rtypes env lang bk.1 rtypes with
    | Except.error e => Except.error e
    | Except.ok tr =>
      match check_books env lang rtypes bks with
      | Except.error e => Except.error e
      | Except.ok tr2 => Except.ok (tr ++ tr2)

/-- A concrete environment in which every canonical resource directory already
exists on the filesystem. -/
def envDirExists : Env where
  lookup := fun l r b => Except.ok ⟨l, b, r, some "https://content.example/repo.zip"⟩
  resource_directory := fun l b r => ["working", "temp", l, b, r]
  dirExists := fun _ => true
  provision := fun _ => Except.ok ["working", "temp", "auh"]
  usfm_asset_file := fun _ _ => Except.ok none
  usfm_asset_html := fun _ _ => Except.ok none

/-- A concrete environment in which provisioning raises for every descriptor
while every other collaborator behaves normally. -/
def envProvisionRaises : Env where
  lookup := fun l r b => Except.ok ⟨l, b, r, some "https://content.example/repo.zip"⟩
  resource_directory := fun l b r => ["working", "temp", l, b, r]
  dirExists := fun _ => false
  provision := fun _ => Except.error "boom"
  usfm_asset_file := fun _ _ => Except.ok none
  usfm_asset_html := fun _ _ => Except.ok none

/-- A concrete environment in which the content file is located but rendering
it to HTML raises. -/
def envRenderRaisesA : Env where
  lookup := fun l r b => Except.ok ⟨l, b, r, some "https://content.example/repo.zip"⟩
  resource_directory := fun l b r => ["working", "temp", l, b, r]
  dirExists := fun _ => false
  provision := fun _ => Except.ok ["working", "temp", "auh", "gen", "ulb"]
  usfm_asset_file := fun _ _ => Except.ok (some "01-GEN.usfm")
  usfm_asset_html := fun _ _ => Except.error "render boom"

/-- A second concrete environment with a raising renderer, used for the
render-exception claim. -/
def envRenderRaisesB : Env where
  lookup := fun l r b => Except.ok ⟨l, b, r, some "https://content.example/repo.zip"⟩
  resource_directory := fun l b r => ["working", "temp", l, b, r]
  dirExists := fun _ => false
  provision := fun _ => Except.ok ["working", "temp", "auh", "gen", "ulb"]
  usfm_asset_file := fun _ _ => Except.ok (some "01-GEN.usfm")
  usfm_asset_html := fun _ _ => Except.error "render boom"

/-- A concrete environment in which rendering succeeds but produces a short
HTML string (3 characters). -/
def envShortHtml : Env where
  lookup := fun l r b => Except.ok ⟨l, b, r, some "https://content.example/repo.zip"⟩
  resource_directory := fun l b r => ["working", "temp", l, b, r]
  dirExists := fun _ => false
  provision := fun _ => Except.ok ["working", "temp", "auh", "gen", "ulb"]
  usfm_asset_file := fun _ _ => Except.ok (some "01-GEN.usfm")
  usfm_asset_html := fun _ _ => Except.ok (some "<p>")

/-- A rendered HTML string of 301 characters, one past the length
threshold. -/
def longHtml : String := String.mk (List.replicate 301 'x')

/-- A concrete environment in which extraction fully succeeds with a long
rendered HTML string, so the triple classifies as `parsed_ok`. -/
def envLongHtml : Env where
  lookup := fun l r b => Except.ok ⟨l, b, r, some "https://content.example/repo.zip"⟩
  resource_directory := fun l b r => ["working", "temp", l, b, r]
  dirExists := fun _ => false
  provision := fun _ => Except.ok ["working", "temp", "auh", "gen", "ulb"]
  usfm_asset_file := fun _ _ => Except.ok (some "01-GEN.usfm")
  usfm_asset_html := fun _ _ => Except.ok (some longHtml)

/-- A concrete feed entry for the language code `auh`, with one record kept by
the configured codes and one filtered out. -/
def entryAuh : LangEntry :=
  ⟨"auh", [⟨"xyz", some "Unrelated"⟩, ⟨"ulb", some "Unlocked Literal Bible"⟩]⟩

/-- A one-entry concrete feed containing only `entryAuh`. -/
def feedAuh : List LangEntry := [entryAuh]

/-- An earlier feed entry with the same code `auh` but different contents,
used to exercise duplicate-entry behaviour. -/
def entryAuhEarlier : LangEntry := ⟨"auh", [⟨"ulb", some "First Edition"⟩]⟩

/-- A later feed entry whose code does not match `auh`. -/
def entryOther : LangEntry := ⟨"zzz", [⟨"ulb", some "Other Language"⟩]⟩

instance : IsTotal (String × String) (fun a b => a.1 ≤ b.1) :=
  ⟨fun a b => le_total a.1 b.1⟩

instance : IsTrans (String × String) (fun a b => a.1 ≤ b.1) :=
  ⟨fun _ _ _ h1 h2 => le_trans h1 h2⟩

/-- C2 (amended): the classifier is the four-way decision function over
`(content_file, html)`: an absent content file yields `content_file_missing`
regardless of `html`; a present content file with absent HTML yields
`html_missing`; a present content file with EMPTY HTML also yields
`html_missing` (the empty string is falsy); a present content file with
nonempty HTML of length `L ≤ 300` (including the boundary `L = 300`) yields
`html_too_short`; and `L > 300` yields `parsed_ok`. -/
theorem classify_decision_table (oh : Option String) (f s t : String)
    (hf : f ≠ "") (hs : s ≠ "") (hsl : s.length ≤ 300) (htl : 300 < t.length) :
    classify none oh = Kind.content_file_missing ∧
    classify (some f) none = Kind.html_missing ∧
    classify (some f) (some "") = Kind.html_missing ∧
    classify (some f) (some s) = Kind.html_too_short ∧
    classify (some f) (some t) = Kind.parsed_ok := by
  have hf' : (f == "") = false := by simpa using hf
  have hs' : (s == "") = false := by simpa using hs
  have ht0 : t ≠ "" := by
    intro h
    rw [h] at htl
    simp [String.length] at htl
  have ht' : (t == "") = false := by simpa using ht0
  refine ⟨by simp [classify, truthy], by simp [classify, truthy, hf'], ?_, ?_, ?_⟩
  · simp [classify, truthy, hf']
  · simp [classify, truthy, pyLen, hf', hs', Nat.not_lt.mpr hsl]
  · simp [classify, truthy, pyLen, hf', ht', htl]

/-- C2: counterexample to the claim as stated — a present content file with a
rendered HTML string of length `L = 0 ≤ 300` is classified `html_missing`,
not `html_too_short`. -/
theorem classify_len_zero_counterexample :
    classify (some "01-GEN.usfm") (some "") = Kind.html_missing ∧
    classify (some "01-GEN.usfm") (some "") ≠ Kind.html_too_short := by
  constructor
  · rfl
  · decide

set_option maxRecDepth 4000 in
/-- C2: witness instantiating the decision table at concrete inputs. -/
theorem classify_decision_table_witness :
    classify none (some "anything") = Kind.content_file_missing ∧
    classify (some "02-EXO.usfm") none = Kind.html_missing ∧
    classify (some "02-EXO.usfm") (some "") = Kind.html_missing ∧
    classify (some "02-EXO.usfm") (some "<p>short</p>") = Kind.html_too_short ∧
    classify (some "02-EXO.usfm") (some longHtml) = Kind.parsed_ok :=
  classify_decision_table (some "anything") "02-EXO.usfm" "<p>short</p>" longHtml
    (by decide) (by decide) (by decide) (by decide)

/-- C9: when the content file is present (truthy) and rendering returns the
empty string, the branch structure classifies the triple `html_missing`, not
`html_too_short`: the empty string is treated exactly like an absent HTML
result. -/
theorem classify_empty_html_as_absent (f : String) (hf : f ≠ "") :
    classify (some f) (some "") = Kind.html_missing ∧
    classify (some f) (some "") = classify (some f) none := by
  have hf' : (f == "") = false := by simpa using hf
  constructor <;> simp [classify, truthy, hf']

/-- C9: witness at a concrete content-file path. -/
theorem classify_empty_html_as_absent_witness :
    classify (some "03-LEV.usfm") (some "") = Kind.html_missing ∧
    classify (some "03-LEV.usfm") (some "") = classify (some "03-LEV.usfm") none :=
  classify_empty_html_as_absent "03-LEV.usfm" (by decide)

/-- C5: whatever path `delete_asset` hands to `delete_tree` — the parent
directory or the resource directory itself — its final component is never the
preserved name (`temp` by default). -/
theorem delete_asset_preserves_protected_name (resource_dir : List String)
    (dir_to_preserve : String) (p : List String)
    (h : delete_asset resource_dir dir_to_preserve = some p) :
    pathName p ≠ dir_to_preserve := by
  unfold delete_asset at h
  split at h
  case isTrue h1 =>
    injection h with h
    subst h
    exact Ne.symm h1
  case isFalse h1 =>
    split at h
    case isTrue h2 =>
      injection h with h
      subst h
      exact Ne.symm h2
    case isFalse h2 =>
      exact absurd h (by simp)

/-- C5: witness — deleting the parent of a concrete resource directory never
touches a directory named `temp`. -/
theorem delete_asset_preserves_protected_name_witness :
    pathName ["working", "auh"] ≠ "temp" :=
  delete_asset_preserves_protected_name ["working", "auh", "auh_gen_ulb"] "temp"
    ["working", "auh"] (by decide)

/-- C1 (amended): for a triple whose canonical resource directory already
exists, the sweep body skips the triple: its trace is exactly the Asset
Locator invocation — the Asset Provisioner and the Extractor are never
invoked, no event is logged and nothing is deleted.  (The Locator itself IS
invoked: it runs before the existence check, because its descriptor supplies
the arguments of the canonical-directory computation.) -/
theorem sweep_skips_existing_dir (env : Env) (lang rt book : String) (dto : Dto)
    (hl : env.lookup lang rt book = Except.ok dto)
    (hex : env.dirExists
      (env.resource_directory dto.lang_code dto.book_code dto.resource_type) = true) :
    check_one env lang rt book = Except.ok [Effect.lookupCall lang rt book] := by
  unfold check_one
  rw [hl]
  simp [hex]

/-- C1: counterexample to the claim as stated — in a concrete environment in
which the canonical resource directory exists, the skipped triple's trace
nevertheless contains the Asset Locator invocation. -/
theorem sweep_skip_invokes_locator_counterexample :
    envDirExists.dirExists
      (envDirExists.resource_directory "auh" "gen" "ulb") = true ∧
    check_one envDirExists "auh" "ulb" "gen" =
      Except.ok [Effect.lookupCall "auh" "ulb" "gen"] ∧
    Effect.lookupCall "auh" "ulb" "gen" ∈ [Effect.lookupCall "auh" "ulb" "gen"] :=
  ⟨rfl, rfl, List.mem_singleton.mpr rfl⟩

/-- C1: witness for the amended skip theorem at a concrete environment. -/
theorem sweep_skips_existing_dir_witness :
    check_one envDirExists "auh" "ulb" "gen" =
      Except.ok [Effect.lookupCall "auh" "ulb" "gen"] :=
  sweep_skips_existing_dir envDirExists "auh" "ulb" "gen"
    ⟨"auh", "gen", "ulb", some "https://content.example/repo.zip"⟩ rfl rfl

/-- Helper for C3: when the lookup of the triple and every provisioning call
succeed, the sweep body never propagates an exception, whatever the Extractor
does. -/
theorem check_one_ok_of_lookup_provision_ok (env : Env) (lang rt book : String)
    (hl : ∃ dto, env.lookup lang rt book = Except.ok dto)
    (hp : ∀ dto, ∃ d, env.provision dto = Except.ok d) :
    ∃ tr, check_one env lang rt book = Except.ok tr := by
  obtain ⟨dto, hl⟩ := hl
  unfold check_one
  rw [hl]
  dsimp only
  by_cases hex : env.dirExists
      (env.resource_directory dto.lang_code dto.book_code dto.resource_type) = true
  · rw [if_pos hex]
    exact ⟨_, rfl⟩
  · obtain ⟨d, hd⟩ := hp dto
    rw [if_neg hex, hd]
    exact ⟨_, rfl⟩

/-- Helper for C3: the inner resource-type loop under the same hypotheses. -/
theorem check_rtypes_ok_of_lookup_provision_ok (env : Env) (lang book : String)
    (hl : ∀ rt bk, ∃ dto, env.lookup lang rt bk = Except.ok dto)
    (hp : ∀ dto, ∃ d, env.provision dto = Except.ok d) :
    ∀ rts : List (String × String),
      ∃ tr, check_rtypes env lang book rts = Except.ok tr
  | [] => ⟨[], rfl⟩
  | rt :: rts => by
    obtain ⟨tr1, h1⟩ :=
      check_one_ok_of_lookup_provision_ok env lang rt.1 book (hl rt.1 book) hp
    obtain ⟨tr2, h2⟩ :=
      check_rtypes_ok_of_lookup_provision_ok env lang book hl hp rts
    exact ⟨tr1 ++ tr2, by unfold check_rtypes; rw [h1, h2]⟩

/-- C3 (amended): the sweep loop over books and resource types isolates
extraction/render failures — as long as the Asset Locator and the Asset
Provisioner do not raise, the loop always runs to completion, whatever the
Extractor does for each triple.  (Locator or Provisioner exceptions, by
contrast, do propagate and abort the loop: see the counterexample.) -/
theorem sweep_isolates_extraction_failures (env : Env) (lang : String)
    (rtypes books : List (String × String))
    (hl : ∀ rt bk, ∃ dto, env.lookup lang rt bk = Except.ok dto)
    (hp : ∀ dto, ∃ d, env.provision dto = Except.ok d) :
    ∃ tr, check_books env lang rtypes books = Except.ok tr := by
  induction books with
  | nil => exact ⟨[], rfl⟩
  | cons bk bks ih =>
    obtain ⟨tr1, h1⟩ :=
      check_rtypes_ok_of_lookup_provision_ok env lang bk.1 hl hp rtypes
    obtain ⟨tr2, h2⟩ := ih
    exact ⟨tr1 ++ tr2, by unfold check_books; rw [h1, h2]⟩

/-- C3: counterexample to the claim as stated — a provisioning exception for
the first triple propagates out of the per-triple processing and aborts the
whole loop: the sweep result is the uncaught exception, and the second book is
never processed. -/
theorem sweep_aborts_on_provision_failure_counterexample :
    check_books envProvisionRaises "auh" [("ulb", "Unlocked Literal Bible (ulb)")]
      [("gen", "Genesis"), ("exo", "Exodus")] = Except.error "boom" := rfl

/-- C3: witness — a sweep in which rendering raises for every triple still
completes. -/
theorem sweep_isolates_extraction_failures_witness :
    ∃ tr, check_books envRenderRaisesA "auh"
      [("ulb", "Unlocked Literal Bible (ulb)")] [("gen", "Genesis")] =
      Except.ok tr :=
  sweep_isolates_extraction_failures envRenderRaisesA "auh"
    [("ulb", "Unlocked Literal Bible (ulb)")] [("gen", "Genesis")]
    (fun rt bk =>
      ⟨⟨"auh", bk, rt, some "https://content.example/repo.zip"⟩, rfl⟩)
    (fun _ => ⟨["working", "temp", "auh", "gen", "ulb"], rfl⟩)

/-- C7: when the content file is located (a truthy path) and rendering raises,
the exception is caught and logged, the rendering result is treated as absent,
the logged event is `html_missing`, and the sweep continues: the loop result
is the first triple's trace followed by whatever the remaining resource types
produce. -/
theorem render_exception_logs_html_missing (env : Env) (lang rt book : String)
    (dto : Dto) (dir : List String) (f e rtn : String)
    (rest : List (String × String))
    (hl : env.lookup lang rt book = Except.ok dto)
    (hex : env.dirExists
      (env.resource_directory dto.lang_code dto.book_code dto.resource_type) = false)
    (hp : env.provision dto = Except.ok dir)
    (hfile : env.usfm_asset_file dto dir = Except.ok (some f))
    (hf : f ≠ "")
    (hh : env.usfm_asset_html (some f) dto = Except.error e) :
    check_one env lang rt book = Except.ok
      [Effect.lookupCall lang rt book, Effect.provisionCall dto, Effect.fileCall,
       Effect.htmlCall, Effect.loggedExc, Effect.logged Kind.html_missing] ∧
    check_rtypes env lang book ((rt, rtn) :: rest) =
      Except.map (fun tr2 =>
        [Effect.lookupCall lang rt book, Effect.provisionCall dto, Effect.fileCall,
         Effect.htmlCall, Effect.loggedExc, Effect.logged Kind.html_missing] ++ tr2)
        (check_rtypes env lang book rest) := by
  have hf' : (f == "") = false := by simpa using hf
  have hone : check_one env lang rt book = Except.ok
      [Effect.lookupCall lang rt book, Effect.provisionCall dto, Effect.fileCall,
       Effect.htmlCall, Effect.loggedExc, Effect.logged Kind.html_missing] := by
    unfold check_one
    rw [hl]
    dsimp only
    rw [if_neg (by simp [hex]), hp]
    dsimp only
    have hextract : extract env dto dir =
        (some f, none, [Effect.fileCall, Effect.htmlCall, Effect.loggedExc]) := by
      unfold extract
      rw [hfile]
      dsimp only
      rw [hh]
    rw [hextract]
    have hcls : classify (some f) none = Kind.html_missing := by
      simp [classify, truthy, hf']
    simp [hcls, deleteActs]
  refine ⟨hone, ?_⟩
  show (match check_one env lang (rt, rtn).1 book with
    | Except.error e => Except.error e
    | Except.ok tr =>
      match check_rtypes env lang book rest with
      | Except.error e => Except.error e
      | Except.ok tr2 => Except.ok (tr ++ tr2)) = _
  rw [hone]
  cases hrec : check_rtypes env lang book rest <;> simp [Except.map]

/-- C7: witness in a concrete environment with a raising renderer. -/
theorem render_exception_logs_html_missing_witness :
    check_one envRenderRaisesB "auh" "ulb" "gen" = Except.ok
      [Effect.lookupCall "auh" "ulb" "gen",
       Effect.provisionCall ⟨"auh", "gen", "ulb", some "https://content.example/repo.zip"⟩,
       Effect.fileCall, Effect.htmlCall, Effect.loggedExc,
       Effect.logged Kind.html_missing] ∧
    check_rtypes envRenderRaisesB "auh" "gen"
      [("ulb", "Unlocked Literal Bible (ulb)")] =
      Except.map (fun tr2 =>
        [Effect.lookupCall "auh" "ulb" "gen",
         Effect.provisionCall ⟨"auh", "gen", "ulb", some "https://content.example/repo.zip"⟩,
         Effect.fileCall, Effect.htmlCall, Effect.loggedExc,
         Effect.logged Kind.html_missing] ++ tr2)
        (check_rtypes envRenderRaisesB "auh" "gen" []) :=
  render_exception_logs_html_missing envRenderRaisesB "auh" "ulb" "gen"
    ⟨"auh", "gen", "ulb", some "https://content.example/repo.zip"⟩
    ["working", "temp", "auh", "gen", "ulb"] "01-GEN.usfm" "render boom"
    "Unlocked Literal Bible (ulb)" [] rfl rfl rfl rfl (by decide) rfl

/-- Helper for C6: the trace of the caught extraction step contains only
collaborator-invocation markers and the exception log — never a
classification event and never a deletion. -/
theorem extract_trace_shape (env : Env) (dto : Dto) (dir : List String) :
    (extract env dto dir).2.2 = [Effect.fileCall, Effect.loggedExc] ∨
    (extract env dto dir).2.2 = [Effect.fileCall, Effect.htmlCall, Effect.loggedExc] ∨
    (extract env dto dir).2.2 = [Effect.fileCall, Effect.htmlCall] := by
  unfold extract
  cases env.usfm_asset_file dto dir with
  | error e => exact Or.inl rfl
  | ok cf =>
    dsimp only
    cases env.usfm_asset_html cf dto with
    | error e => exact Or.inr (Or.inl rfl)
    | ok h => exact Or.inr (Or.inr rfl)

/-- C6: retention is gated on the classification: a deletion effect appears in
a triple's trace only together with a `parsed_ok` event, and whenever the
logged classification is `content_file_missing`, `html_missing` or
`html_too_short`, no deletion effect appears at all — the provisioned
directory is left intact. -/
theorem retention_only_on_parsed_ok (env : Env) (lang rt book : String)
    (tr : List Effect) (h : check_one env lang rt book = Except.ok tr) :
    ((∃ p, Effect.deleted p ∈ tr) → Effect.logged Kind.parsed_ok ∈ tr) ∧
    (∀ k, Effect.logged k ∈ tr → k ≠ Kind.parsed_ok →
      ∀ p, Effect.deleted p ∉ tr) := by
  unfold check_one at h
  cases hl : env.lookup lang rt book with
  | error e =>
    rw [hl] at h
    exact absurd h (by simp)
  | ok dto =>
    rw [hl] at h
    dsimp only at h
    by_cases hex : env.dirExists
        (env.resource_directory dto.lang_code dto.book_code dto.resource_type) = true
    · rw [if_pos hex] at h
      injection h with h
      subst h
      constructor
      · rintro ⟨p, hp⟩
        simp at hp
      · intro k hk
        simp at hk
    · rw [if_neg hex] at h
      cases hp : env.provision dto with
      | error e =>
        rw [hp] at h
        exact absurd h (by simp)
      | ok dir =>
        rw [hp] at h
        dsimp only at h
        injection h with h
        subst h
        rcases extract_trace_shape env dto dir with hA | hA | hA <;>
          rw [hA] <;>
          by_cases hpk :
            classify (extract env dto dir).1 (extract env dto dir).2.1 =
              Kind.parsed_ok
        case pos | pos | pos =>
          all_goals
          · rw [hpk]
            cases hda : delete_asset dir "temp" with
            | none =>
              refine ⟨fun _ => ?_, fun k2 hk2 hne p => ?_⟩
              · simp [deleteActs, hda]
              · exfalso
                apply hne
                simpa [deleteActs, hda] using hk2
            | some q =>
              refine ⟨fun _ => ?_, fun k2 hk2 hne p => ?_⟩
              · simp [deleteActs, hda]
              · exfalso
                apply hne
                simpa [deleteActs, hda] using hk2
        case neg | neg | neg =>
          all_goals
          · refine ⟨fun hdel => ?_, fun k2 hk2 hne p => ?_⟩
            · exfalso
              obtain ⟨p, hp2⟩ := hdel
              simp [deleteActs, hpk] at hp2
            · simp [deleteActs, hpk]

set_option maxRecDepth 8000 in
/-- C6: witness — in a concrete environment whose triple parses fine, the
trace contains a deletion together with the `parsed_ok` event, and the
retention theorem applies to it. -/
theorem retention_only_on_parsed_ok_witness :
    ((∃ p, Effect.deleted p ∈
      [Effect.lookupCall "auh" "ulb" "gen",
       Effect.provisionCall ⟨"auh", "gen", "ulb", some "https://content.example/repo.zip"⟩,
       Effect.fileCall, Effect.htmlCall, Effect.logged Kind.parsed_ok,
       Effect.deleted ["working", "temp", "auh", "gen"]]) →
      Effect.logged Kind.parsed_ok ∈
      [Effect.lookupCall "auh" "ulb" "gen",
       Effect.provisionCall ⟨"auh", "gen", "ulb", some "https://content.example/repo.zip"⟩,
       Effect.fileCall, Effect.htmlCall, Effect.logged Kind.parsed_ok,
       Effect.deleted ["working", "temp", "auh", "gen"]]) ∧
    (∀ k, Effect.logged k ∈
      [Effect.lookupCall "auh" "ulb" "gen",
       Effect.provisionCall ⟨"auh", "gen", "ulb", some "https://content.example/repo.zip"⟩,
       Effect.fileCall, Effect.htmlCall, Effect.logged Kind.parsed_ok,
       Effect.deleted ["working", "temp", "auh", "gen"]] →
      k ≠ Kind.parsed_ok →
      ∀ p, Effect.deleted p ∉
      [Effect.lookupCall "auh" "ulb" "gen",
       Effect.provisionCall ⟨"auh", "gen", "ulb", some "https://content.example/repo.zip"⟩,
       Effect.fileCall, Effect.htmlCall, Effect.logged Kind.parsed_ok,
       Effect.deleted ["working", "temp", "auh", "gen"]]) :=
  retention_only_on_parsed_ok envLongHtml "auh" "ulb" "gen"
    [Effect.lookupCall "auh" "ulb" "gen",
     Effect.provisionCall ⟨"auh", "gen", "ulb", some "https://content.example/repo.zip"⟩,
     Effect.fileCall, Effect.htmlCall, Effect.logged Kind.parsed_ok,
     Effect.deleted ["working", "temp", "auh", "gen"]] rfl

/-- C4: evaluating resource-type resolution at a non-gateway language code
that matches no entry of the feed: the function does NOT return an empty
result — the `return sorted(values, ...)` line raises `UnboundLocalError`
because the loop over matching entries never bound `values`, and the caller
(`usfm_check_for_lang`) does not catch it. -/
theorem resource_types_no_match_raises :
    resource_types_and_names "zzz" [] []
      [⟨"aaa", [⟨"ulb", some "Unlocked Literal Bible"⟩]⟩]
      ["ulb", "f10"] ["tn"] ["tq"] ["tw"] =
      Except.error
        "UnboundLocalError: local variable values referenced before assignment" := rfl

/-- C8: for a non-gateway language code matching exactly one feed entry whose
records all carry names, resolution returns the entry's records filtered to
the configured USFM/TN/TQ/TW codes, each reformatted as
`(code, name ++ " (" ++ code ++ ")")`, as a list sorted ascending by code
(a permutation of the filtered/reformatted records). -/
theorem resource_types_feed_language (lang : String)
    (en idm : List (String × String)) (data : List LangEntry)
    (usfm tn tq tw : List String) (e : LangEntry)
    (hen : lang ≠ "en") (hid : lang ≠ "id")
    (hmatch : data.filter (fun x => x.code == lang) = [e])
    (hnames : ∀ r ∈ e.contents, r.name.isSome = true) :
    ∃ l, resource_types_and_names lang en idm data usfm tn tq tw = Except.ok l ∧
      l.Perm ((e.contents.filter (keepCode usfm tn tq tw)).map formatRec) ∧
      List.Sorted (fun a b : String × String => a.1 ≤ b.1) l ∧
      ∀ p ∈ l, ∃ r nm, r ∈ e.contents ∧ keepCode usfm tn tq tw r = true ∧
        r.name = some nm ∧ p = (r.code, nm ++ " (" ++ r.code ++ ")") := by
  refine ⟨sortPairs (entryValues usfm tn tq tw e), ?_, ?_, ?_, ?_⟩
  · unfold resource_types_and_names
    rw [if_neg hen, if_neg hid, hmatch]
    rfl
  · exact List.perm_insertionSort _ _
  · exact List.sorted_insertionSort _ _
  · intro p hp
    have hp2 : p ∈ entryValues usfm tn tq tw e := by
      simpa [sortPairs] using hp
    unfold entryValues at hp2
    obtain ⟨r, hr, hfmt⟩ := List.mem_map.mp hp2
    obtain ⟨hrmem, hkeep⟩ := List.mem_filter.mp hr
    obtain ⟨nm, hnm⟩ := Option.isSome_iff_exists.mp (hnames r hrmem)
    refine ⟨r, nm, hrmem, hkeep, hnm, ?_⟩
    rw [← hfmt]
    unfold formatRec
    rw [hnm]
    rfl

/-- C8: witness at a concrete one-entry feed for the language code `auh`. -/
theorem resource_types_feed_language_witness :
    ∃ l, resource_types_and_names "auh" [] [] feedAuh
        ["ulb", "f10"] ["tn"] ["tq"] ["tw"] = Except.ok l ∧
      l.Perm ((entryAuh.contents.filter
        (keepCode ["ulb", "f10"] ["tn"] ["tq"] ["tw"])).map formatRec) ∧
      List.Sorted (fun a b : String × String => a.1 ≤ b.1) l ∧
      ∀ p ∈ l, ∃ r nm, r ∈ entryAuh.contents ∧
        keepCode ["ulb", "f10"] ["tn"] ["tq"] ["tw"] r = true ∧
        r.name = some nm ∧ p = (r.code, nm ++ " (" ++ r.code ++ ")") :=
  resource_types_feed_language "auh" [] [] feedAuh
    ["ulb", "f10"] ["tn"] ["tq"] ["tw"] entryAuh
    (by decide) (by decide) (by decide) (by decide)

/-- C10: when the feed holds several entries with the requested language code,
resolution returns the filtered/formatted contents of only the LAST matching
entry, whatever the earlier matching entries contain. -/
theorem resource_types_last_match_wins (lang : String)
    (en idm : List (String × String)) (d1 d2 : List LangEntry) (e : LangEntry)
    (usfm tn tq tw : List String)
    (hen : lang ≠ "en") (hid : lang ≠ "id") (he : e.code = lang)
    (hearlier : ∃ e1 ∈ d1, e1.code = lang)
    (hlater : ∀ e2 ∈ d2, e2.code ≠ lang) :
    resource_types_and_names lang en idm (d1 ++ e :: d2) usfm tn tq tw
      = Except.ok (sortPairs (entryValues usfm tn tq tw e)) := by
  have h2 : d2.filter (fun x => x.code == lang) = [] := by
    rw [List.filter_eq_nil_iff]
    intro a ha
    simp [hlater a ha]
  have hlast : ((d1 ++ e :: d2).filter (fun x => x.code == lang)).getLast?
      = some e := by
    rw [List.filter_append, List.filter_cons]
    simp only [he, beq_self_eq_true, if_true, h2]
    exact List.getLast?_concat _
  unfold resource_types_and_names
  rw [if_neg hen, if_neg hid, hlast]

/-- C10: witness — a two-match feed in which the result is computed from the
later entry and the earlier matching entry's contents are discarded. -/
theorem resource_types_last_match_wins_witness :
    resource_types_and_names "auh" [] []
      ([entryAuhEarlier] ++ entryAuh :: [entryOther])
      ["ulb", "f10"] ["tn"] ["tq"] ["tw"]
      = Except.ok (sortPairs (entryValues ["ulb", "f10"] ["tn"] ["tq"] ["tw"]
          entryAuh)) :=
  resource_types_last_match_wins "auh" [] [] [entryAuhEarlier] [entryOther]
    entryAuh ["ulb", "f10"] ["tn"] ["tq"] ["tw"]
    (by decide) (by decide) (by decide)
    ⟨entryAuhEarlier, by decide, by decide⟩
    (by decide)
